import Mathlib

/-!
Producer loop of `ui_and_ai/src/main.cc`

A shallow embedding of the body of `ai_proc` (main.cc lines 114-187): the emotion
throttle, the emotion cache, the wake-up cooldown, the result lists shared with
`frame_handler`, and the wake-up event that is sent after the lock is released.

Conventions of the embedding.

* `long long` millisecond timestamps are `Int`.  `now_ms()` reads
  `std::chrono::steady_clock`; its values and their differences are far inside the
  64-bit range, so no wrap-around is modelled.
* The external collaborators are inputs of one cycle (`Cycle`): the two clock
  readings `loop_now` (line 117) and `now` (line 138), the return code of
  `v4l2_drm_dump`, the list written by `face_det.post_process`, and the result the
  emotion classifier writes for face `i`.
* `FaceDetectionInfo` is declared in `face_detection.h`; main.cc only stores, counts
  and forwards detections, so the detection type is a parameter `Det`.
* `FaceEmotionInfo.score` is a C `float` that main.cc only copies; it is kept as its
  32-bit IEEE-754 pattern, so the literal `0.0f` of line 154 is `0`.
-/

namespace UiAndAi

/-- Record `FaceEmotionInfo` of face_emotion.h: class id, score (bit pattern), label. -/
structure FaceEmotionInfo where
  idx : Int
  score : Nat
  label : String
deriving DecidableEq, Repr

/-- Constant `kEmotionCooldownMs` (main.cc line 44). -/
def kEmotionCooldownMs : Int := 3000

/-- Constant `kEmotionIntervalMs` (main.cc line 45). -/
def kEmotionIntervalMs : Int := 1000

/-- Table `kEmotionLabelZh` (main.cc lines 57-65), as its key/value pairs. -/
def kEmotionLabelZh : List (String × String) :=
  [("Anger", "生气"), ("Disgust", "厌恶"), ("Fear", "恐惧"), ("Happiness", "高兴"),
   ("Neutral", "平静"), ("Sadness", "伤心"), ("Surprise", "惊讶")]

/-- Lines 162-163: `zh_label` is the table entry of the label when `find` succeeds and
the raw label otherwise. -/
def zh_label (label : String) : String :=
  match kEmotionLabelZh.lookup label with
  | some zh => zh
  | none => label

/-- The variables that outlive one cycle: the three file-scope vectors (lines 40-42), the
atomic `g_last_emotion_trigger_ms` (line 55) and the local `last_emotion_infer_ms` of
`ai_proc` (line 114). -/
structure State (Det : Type) where
  face_emotion_results : List FaceEmotionInfo
  face_det_results : List Det
  cached_emotion_results : List FaceEmotionInfo
  g_last_emotion_trigger_ms : Int
  last_emotion_infer_ms : Int

/-- State when `ai_proc` enters its loop: empty vectors, both timestamps zero. -/
def State.init (Det : Type) : State Det :=
  { face_emotion_results := []
    face_det_results := []
    cached_emotion_results := []
    g_last_emotion_trigger_ms := 0
    last_emotion_infer_ms := 0 }

/-- Everything the `for` loop of lines 140-168 can change: the state, the locals
`need_wakeup` and `wakeup_text` (lines 136-137), and `stores`, a history variable that
records every value written by `g_last_emotion_trigger_ms.store` (line 166) in this
cycle.  No code reads `stores`. -/
structure Locals (Det : Type) where
  st : State Det
  need_wakeup : Bool
  wakeup_text : String
  stores : List Int

/-- What the outside world supplies to one pass of the `while` loop. -/
structure Cycle (Det : Type) where
  /-- Clock reading of line 117. -/
  loop_now : Int
  /-- Return value of `v4l2_drm_dump(&context, 1000)`, line 119; nonzero is a failure
  such as the acquisition timeout. -/
  ret : Int
  /-- Contents `face_det.post_process` leaves in `face_det_results`, line 130. -/
  dets : List Det
  /-- Result written by `face_emo.post_process` for face `i`, lines 143-145. -/
  emo : Nat → FaceEmotionInfo
  /-- Clock reading of line 138. -/
  now : Int

variable {Det : Type}

/-- Line 118: the decision `run_emotion_this_frame`. -/
def run_emotion_this_frame (st : State Det) (c : Cycle Det) : Bool :=
  decide (c.loop_now - st.last_emotion_infer_ms ≥ kEmotionIntervalMs)

/-- Lines 141-157: the value of `emo_result` for face `i` and the state after the
classification branch or the cache branch. -/
def emotion_for (run : Bool) (emo : Nat → FaceEmotionInfo) (now : Int)
    (st : State Det) (i : Nat) : FaceEmotionInfo × State Det :=
  if run then
    (emo i, { st with
      cached_emotion_results := st.cached_emotion_results ++ [emo i]
      last_emotion_infer_ms := now })
  else if h : i < st.cached_emotion_results.length then
    (st.cached_emotion_results[i], st)
  else
    (⟨0, 0, "Neutral"⟩, { st with
      cached_emotion_results := st.cached_emotion_results ++ [⟨0, 0, "Neutral"⟩] })

/-- Lines 141-167: one iteration of the `for` loop, for face `i`. -/
def loop_body (run : Bool) (emo : Nat → FaceEmotionInfo) (now : Int)
    (v : Locals Det) (i : Nat) : Locals Det :=
  let r := emotion_for run emo now v.st i
  let emo_result := r.1
  let st1 : State Det :=
    { r.2 with face_emotion_results := r.2.face_emotion_results ++ [emo_result] }
  if run && !v.need_wakeup && emo_result.label != "Neutral"
      && decide (now - st1.g_last_emotion_trigger_ms ≥ kEmotionCooldownMs) then
    { st := { st1 with g_last_emotion_trigger_ms := now }
      need_wakeup := true
      wakeup_text := "我当前情绪是" ++ zh_label emo_result.label
      stores := v.stores ++ [now] }
  else
    { v with st := st1 }

/-- Lines 140-168: the first `n` iterations of the `for` loop. -/
def for_loop (run : Bool) (emo : Nat → FaceEmotionInfo) (now : Int)
    (n : Nat) (v : Locals Det) : Locals Det :=
  (List.range n).foldl (loop_body run emo now) v

/-- Lines 128-135: the state at the entry of the `for` loop. -/
def loop_entry (run : Bool) (st : State Det) (c : Cycle Det) : Locals Det :=
  { st :=
      { st with
        face_det_results := c.dets
        face_emotion_results := []
        cached_emotion_results := if run then [] else st.cached_emotion_results }
    need_wakeup := false
    wakeup_text := ""
    stores := [] }

/-- Lines 117-172: one pass of the `while` loop up to `result_mutex.unlock()`.  A nonzero
`ret` takes the `continue` of line 122: nothing is touched and nothing is sent. -/
def ai_proc_cycle (st : State Det) (c : Cycle Det) : Locals Det :=
  let run := run_emotion_this_frame st c
  if c.ret ≠ 0 then
    { st := st, need_wakeup := false, wakeup_text := "", stores := [] }
  else
    let v0 := loop_entry run st c
    let v := for_loop run c.emo c.now v0.st.face_det_results.length v0
    if run then
      { v with st := { v.st with last_emotion_infer_ms := c.now } }
    else v

/-- A JSON object with string values, as the list of its members.  The order of the list
is the order in which the keys were first assigned and carries no meaning. -/
abbrev Json := List (String × String)

/-- Assignment `j[k] = v`: replaces the value of the member `k` or adds the member. -/
def Json.set : Json → String → String → Json
  | [], k, v => [(k, v)]
  | (k0, v0) :: rest, k, v =>
    if k0 = k then (k0, v) :: rest else (k0, v0) :: Json.set rest k v

/-- Lines 175-179: the object `j`. -/
def wakeup_json (wakeup_text : String) : Json :=
  (((Json.set [] "type" "wake-up").set "status" "start").set "wake-up_method" "video").set
    "wake-up_text" wakeup_text

/-- Lines 174-182: the object handed to `send`, if any; `ep` tells whether the pointer
`g_ipc_wakeup_detect_control_ep` is non-null. -/
def emitted (ep : Bool) (v : Locals Det) : Option Json :=
  if v.need_wakeup && ep then some (wakeup_json v.wakeup_text) else none

/-- State after a finite sequence of passes of the `while` loop. -/
def run_cycles (st : State Det) : List (Cycle Det) → State Det
  | [] => st
  | c :: cs => run_cycles (ai_proc_cycle st c).st cs

/-- The per-cycle results of a finite sequence of passes, in order. -/
def outputs (st : State Det) : List (Cycle Det) → List (Locals Det)
  | [] => []
  | c :: cs => ai_proc_cycle st c :: outputs (ai_proc_cycle st c).st cs

/-- The decisions `run_emotion_this_frame` taken in a sequence of passes, in order. -/
def decisions (st : State Det) : List (Cycle Det) → List Bool
  | [] => []
  | c :: cs => run_emotion_this_frame st c :: decisions (ai_proc_cycle st c).st cs

/-- All values stored into `g_last_emotion_trigger_ms` during a sequence of passes, in
the order of the stores. -/
def trigger_log (st : State Det) : List (Cycle Det) → List Int
  | [] => []
  | c :: cs => (ai_proc_cycle st c).stores ++ trigger_log (ai_proc_cycle st c).st cs

/-- A cycle that acquires a frame, with one clock value `t` for both readings, `n`
detections and the same classifier result for every face. -/
def uniform_cycle (t : Int) (n : Nat) (e : FaceEmotionInfo) : Cycle Unit :=
  { loop_now := t, ret := 0, dets := List.replicate n (), emo := fun _ => e, now := t }

/-- Lines 204-206 and 214-216 of `frame_handler`: the arguments of the successive calls
of `draw_result_video` while the lock is held, `none` standing for a call whose index is
outside one of the two vectors. -/
def frame_handler_draws (st : State Det) : List (Option (Det × FaceEmotionInfo)) :=
  (List.range st.face_det_results.length).map fun i =>
    match st.face_det_results[i]?, st.face_emotion_results[i]? with
    | some d, some e => some (d, e)
    | _, _ => none

/-- Time of the last fresh inference in a history of cycles paired with their decisions:
the `now` of the latest cycle whose decision was true, and `t0` when there is none. -/
def last_fresh_time (t0 : Int) (history : List (Cycle Det × Bool)) : Int :=
  history.foldl (fun t p => if p.2 then p.1.now else t) t0

/-- A classifier result with label "Happiness". -/
def happy : FaceEmotionInfo := ⟨3, 1065353216, "Happiness"⟩

/-- A classifier result with label "Neutral". -/
def neutral : FaceEmotionInfo := ⟨4, 1065353216, "Neutral"⟩

/-- A classifier result with label "Fear". -/
def fear : FaceEmotionInfo := ⟨2, 1065353216, "Fear"⟩

/-- The state after one fresh pass at clock value 1000 that saw one happy face: one cache
entry, throttle timestamp 1000, no trigger yet. -/
def state_after_one_face : State Unit :=
  (ai_proc_cycle (State.init Unit) (uniform_cycle 1000 1 happy)).st

/-- A pass at clock value `t` that sees three faces classified Neutral, Happiness, Fear in
this order. -/
def three_faces_cycle (t : Int) : Cycle Unit :=
  { loop_now := t, ret := 0, dets := [(), (), ()],
    emo := fun i => [neutral, happy, fear].getD i neutral, now := t }

/-! ## The `for` loop -/

theorem for_loop_succ (run : Bool) (emo : Nat → FaceEmotionInfo) (now : Int) (n : Nat)
    (v : Locals Det) :
    for_loop run emo now (n + 1) v = loop_body run emo now (for_loop run emo now n v) n := by
  simp [for_loop, List.range_succ, List.foldl_append]

theorem emotion_for_det (run : Bool) (emo : Nat → FaceEmotionInfo) (now : Int)
    (st : State Det) (i : Nat) :
    (emotion_for run emo now st i).2.face_det_results = st.face_det_results := by
  unfold emotion_for
  split_ifs <;> rfl

theorem emotion_for_emotions (run : Bool) (emo : Nat → FaceEmotionInfo) (now : Int)
    (st : State Det) (i : Nat) :
    (emotion_for run emo now st i).2.face_emotion_results = st.face_emotion_results := by
  unfold emotion_for
  split_ifs <;> rfl

theorem emotion_for_trigger (run : Bool) (emo : Nat → FaceEmotionInfo) (now : Int)
    (st : State Det) (i : Nat) :
    (emotion_for run emo now st i).2.g_last_emotion_trigger_ms = st.g_last_emotion_trigger_ms := by
  unfold emotion_for
  split_ifs <;> rfl

theorem loop_body_det (run : Bool) (emo : Nat → FaceEmotionInfo) (now : Int)
    (v : Locals Det) (i : Nat) :
    (loop_body run emo now v i).st.face_det_results = v.st.face_det_results := by
  unfold loop_body
  dsimp only
  split_ifs <;> simp [emotion_for_det]

theorem loop_body_emotions (run : Bool) (emo : Nat → FaceEmotionInfo) (now : Int)
    (v : Locals Det) (i : Nat) :
    (loop_body run emo now v i).st.face_emotion_results
      = v.st.face_emotion_results ++ [(emotion_for run emo now v.st i).1] := by
  unfold loop_body
  dsimp only
  split_ifs <;> simp [emotion_for_emotions]

theorem loop_body_cache (run : Bool) (emo : Nat → FaceEmotionInfo) (now : Int)
    (v : Locals Det) (i : Nat) :
    (loop_body run emo now v i).st.cached_emotion_results
      = (emotion_for run emo now v.st i).2.cached_emotion_results := by
  unfold loop_body
  dsimp only
  split_ifs <;> rfl

theorem loop_body_infer (run : Bool) (emo : Nat → FaceEmotionInfo) (now : Int)
    (v : Locals Det) (i : Nat) :
    (loop_body run emo now v i).st.last_emotion_infer_ms
      = (emotion_for run emo now v.st i).2.last_emotion_infer_ms := by
  unfold loop_body
  dsimp only
  split_ifs <;> rfl

theorem for_loop_det (run : Bool) (emo : Nat → FaceEmotionInfo) (now : Int) (n : Nat)
    (v : Locals Det) :
    (for_loop run emo now n v).st.face_det_results = v.st.face_det_results := by
  induction n with
  | zero => rfl
  | succ n ih => rw [for_loop_succ, loop_body_det, ih]

theorem for_loop_emotions_length (run : Bool) (emo : Nat → FaceEmotionInfo) (now : Int) (n : Nat)
    (v : Locals Det) :
    (for_loop run emo now n v).st.face_emotion_results.length
      = v.st.face_emotion_results.length + n := by
  induction n with
  | zero => rfl
  | succ n ih => rw [for_loop_succ, loop_body_emotions, List.length_append, ih]; rfl

theorem cycle_aligned (st : State Det) (c : Cycle Det)
    (h : st.face_det_results.length = st.face_emotion_results.length) :
    (ai_proc_cycle st c).st.face_det_results.length
      = (ai_proc_cycle st c).st.face_emotion_results.length := by
  unfold ai_proc_cycle
  dsimp only
  split_ifs
  · exact h
  · simp [for_loop_det, for_loop_emotions_length, loop_entry]
  · simp [for_loop_det, for_loop_emotions_length, loop_entry]

theorem run_cycles_aligned (cs : List (Cycle Det)) : ∀ (st : State Det),
    st.face_det_results.length = st.face_emotion_results.length →
    (run_cycles st cs).face_det_results.length = (run_cycles st cs).face_emotion_results.length := by
  induction cs with
  | nil => intro st h; exact h
  | cons c cs ih => intro st h; exact ih _ (cycle_aligned st c h)

theorem loop_body_cached (emo : Nat → FaceEmotionInfo) (now : Int) (v : Locals Det) (i : Nat) :
    loop_body false emo now v i =
      { v with st :=
          { v.st with
            face_emotion_results :=
              v.st.face_emotion_results ++ [v.st.cached_emotion_results.getD i ⟨0, 0, "Neutral"⟩]
            cached_emotion_results :=
              if i < v.st.cached_emotion_results.length then v.st.cached_emotion_results
              else v.st.cached_emotion_results ++ [⟨0, 0, "Neutral"⟩] } } := by
  unfold loop_body emotion_for
  by_cases h : i < v.st.cached_emotion_results.length
  · simp [h, List.getD_eq_getElem?_getD, List.getElem?_eq_getElem h]
  · simp [h, List.getD_eq_getElem?_getD, List.getElem?_eq_none (not_lt.mp h)]

theorem for_loop_cached (emo : Nat → FaceEmotionInfo) (now : Int) (n : Nat) (v : Locals Det) :
    for_loop false emo now n v =
      { v with st :=
          { v.st with
            face_emotion_results :=
              v.st.face_emotion_results
                ++ (List.range n).map (fun i => v.st.cached_emotion_results.getD i ⟨0, 0, "Neutral"⟩)
            cached_emotion_results :=
              v.st.cached_emotion_results
                ++ List.replicate (n - v.st.cached_emotion_results.length) ⟨0, 0, "Neutral"⟩ } } := by
  induction n with
  | zero => simp [for_loop]
  | succ n ih =>
    rw [for_loop_succ, ih, loop_body_cached]
    by_cases h : n < v.st.cached_emotion_results.length
    · have h1 : n - v.st.cached_emotion_results.length = 0 := by omega
      have h2 : n + 1 - v.st.cached_emotion_results.length = 0 := by omega
      simp [h, h1, h2, List.range_succ]
    · have h2 : n + 1 - v.st.cached_emotion_results.length
          = (n - v.st.cached_emotion_results.length) + 1 := by omega
      have h3 : ¬ n < v.st.cached_emotion_results.length
          + (n - v.st.cached_emotion_results.length) := by omega
      simp [h, h2, h3, List.range_succ, List.replicate_succ', List.getD_eq_getElem?_getD]
      rw [List.getElem?_eq_none (by simp; omega), List.getElem?_eq_none (by omega)]

theorem loop_body_fresh (emo : Nat → FaceEmotionInfo) (now : Int) (v : Locals Det) (i : Nat) :
    loop_body true emo now v i =
      if v.need_wakeup = false ∧ (emo i).label ≠ "Neutral"
          ∧ now - v.st.g_last_emotion_trigger_ms ≥ kEmotionCooldownMs then
        { st :=
            { v.st with
              face_emotion_results := v.st.face_emotion_results ++ [emo i]
              cached_emotion_results := v.st.cached_emotion_results ++ [emo i]
              last_emotion_infer_ms := now
              g_last_emotion_trigger_ms := now }
          need_wakeup := true
          wakeup_text := "我当前情绪是" ++ zh_label (emo i).label
          stores := v.stores ++ [now] }
      else
        { v with st :=
            { v.st with
              face_emotion_results := v.st.face_emotion_results ++ [emo i]
              cached_emotion_results := v.st.cached_emotion_results ++ [emo i]
              last_emotion_infer_ms := now } } := by
  unfold loop_body emotion_for
  by_cases h1 : v.need_wakeup = false
  · by_cases h2 : (emo i).label = "Neutral"
    · simp [h1, h2]
    · by_cases h3 : now - v.st.g_last_emotion_trigger_ms ≥ kEmotionCooldownMs
      · simp [h1, h2, h3]
      · simp [h1, h2, h3]
  · simp [h1]

theorem for_loop_fresh_lists (emo : Nat → FaceEmotionInfo) (now : Int) (n : Nat) (v : Locals Det) :
    (for_loop true emo now n v).st.face_emotion_results
        = v.st.face_emotion_results ++ (List.range n).map emo
      ∧ (for_loop true emo now n v).st.cached_emotion_results
        = v.st.cached_emotion_results ++ (List.range n).map emo := by
  induction n with
  | zero => simp [for_loop]
  | succ n ih =>
    rw [for_loop_succ, loop_body_emotions, loop_body_cache, ih.1]
    simp [emotion_for, ih.2, List.range_succ]

/-- The cooldown part of the loop state after `n` iterations of a fresh cycle that was
entered with `need_wakeup` false. -/
theorem for_loop_fresh_gate (emo : Nat → FaceEmotionInfo) (now : Int) (v : Locals Det)
    (hv : v.need_wakeup = false) (n : Nat) :
    ((for_loop true emo now n v).need_wakeup = false →
        (for_loop true emo now n v).st.g_last_emotion_trigger_ms = v.st.g_last_emotion_trigger_ms
        ∧ (for_loop true emo now n v).stores = v.stores
        ∧ (for_loop true emo now n v).wakeup_text = v.wakeup_text
        ∧ (now - v.st.g_last_emotion_trigger_ms ≥ kEmotionCooldownMs →
            ∀ j, j < n → (emo j).label = "Neutral"))
    ∧ ((for_loop true emo now n v).need_wakeup = true →
        now - v.st.g_last_emotion_trigger_ms ≥ kEmotionCooldownMs
        ∧ (for_loop true emo now n v).st.g_last_emotion_trigger_ms = now
        ∧ (for_loop true emo now n v).stores = v.stores ++ [now]
        ∧ ∃ i, i < n ∧ (emo i).label ≠ "Neutral" ∧ (∀ j, j < i → (emo j).label = "Neutral")
            ∧ (for_loop true emo now n v).wakeup_text
                = "我当前情绪是" ++ zh_label (emo i).label) := by
  induction n with
  | zero => simp [for_loop, hv]
  | succ n ih =>
    rw [for_loop_succ, loop_body_fresh]
    obtain ⟨ihA, ihB⟩ := ih
    cases hw : (for_loop true emo now n v).need_wakeup with
    | true =>
      obtain ⟨b1, b2, b3, i, hi, b4, b5, b6⟩ := ihB hw
      rw [if_neg (by simp [hw])]
      refine ⟨fun h => ?_, fun _ => ⟨b1, b2, b3, i, by omega, b4, b5, b6⟩⟩
      cases h
    | false =>
      obtain ⟨a1, a2, a3, a4⟩ := ihA hw
      by_cases hc : (emo n).label ≠ "Neutral"
          ∧ now - (for_loop true emo now n v).st.g_last_emotion_trigger_ms ≥ kEmotionCooldownMs
      · have hc2 := hc.2
        rw [a1] at hc2
        rw [if_pos ⟨rfl, hc⟩]
        refine ⟨fun h => ?_, fun _ => ⟨hc2, rfl, ?_, n, by omega, hc.1, ?_, rfl⟩⟩
        · cases h
        · show (for_loop true emo now n v).stores ++ [now] = v.stores ++ [now]
          rw [a2]
        · intro j hj
          exact a4 hc2 j hj
      · rw [if_neg (fun h => hc h.2)]
        refine ⟨fun _ => ⟨a1, a2, a3, ?_⟩, fun h => ?_⟩
        · intro hcool j hj
          rcases Nat.lt_succ_iff_lt_or_eq.mp hj with h | h
          · exact a4 hcool j h
          · subst h
            by_contra hne
            exact hc ⟨hne, by rw [a1]; exact hcool⟩
        · cases h

/-! ## One pass of the `while` loop -/

theorem cycle_skipped (st : State Det) (c : Cycle Det) (h : c.ret ≠ 0) :
    ai_proc_cycle st c = { st := st, need_wakeup := false, wakeup_text := "", stores := [] } := by
  unfold ai_proc_cycle
  simp [h]

theorem cycle_cached (st : State Det) (c : Cycle Det) (h : c.ret = 0)
    (hr : run_emotion_this_frame st c = false) :
    ai_proc_cycle st c =
      { st :=
          { st with
            face_det_results := c.dets
            face_emotion_results :=
              (List.range c.dets.length).map
                (fun i => st.cached_emotion_results.getD i ⟨0, 0, "Neutral"⟩)
            cached_emotion_results :=
              st.cached_emotion_results
                ++ List.replicate (c.dets.length - st.cached_emotion_results.length)
                    ⟨0, 0, "Neutral"⟩ }
        need_wakeup := false
        wakeup_text := ""
        stores := [] } := by
  unfold ai_proc_cycle
  simp [h, hr, for_loop_cached, loop_entry]

theorem cycle_fresh (st : State Det) (c : Cycle Det) (h : c.ret = 0)
    (hr : run_emotion_this_frame st c = true) :
    ai_proc_cycle st c =
      { for_loop true c.emo c.now c.dets.length (loop_entry true st c) with
        st :=
          { (for_loop true c.emo c.now c.dets.length (loop_entry true st c)).st with
            last_emotion_infer_ms := c.now } } := by
  have hn : (loop_entry true st c).st.face_det_results.length = c.dets.length := rfl
  unfold ai_proc_cycle
  simp [h, hr, hn]

theorem cycle_fresh_lists (st : State Det) (c : Cycle Det) (h : c.ret = 0)
    (hr : run_emotion_this_frame st c = true) :
    (ai_proc_cycle st c).st.face_emotion_results = (List.range c.dets.length).map c.emo
      ∧ (ai_proc_cycle st c).st.cached_emotion_results = (List.range c.dets.length).map c.emo := by
  rw [cycle_fresh st c h hr]
  have := for_loop_fresh_lists c.emo c.now c.dets.length (loop_entry true st c)
  simpa [loop_entry] using this

/-- What one pass does to the cooldown: either nothing, or one store of `now` under the
conditions of line 161 at the first face whose label is not Neutral. -/
theorem cycle_gate (st : State Det) (c : Cycle Det) :
    ((ai_proc_cycle st c).need_wakeup = false →
        (ai_proc_cycle st c).st.g_last_emotion_trigger_ms = st.g_last_emotion_trigger_ms
        ∧ (ai_proc_cycle st c).stores = []
        ∧ ¬ (c.ret = 0 ∧ run_emotion_this_frame st c = true
              ∧ c.now - st.g_last_emotion_trigger_ms ≥ kEmotionCooldownMs
              ∧ ∃ j, j < c.dets.length ∧ (c.emo j).label ≠ "Neutral"))
    ∧ ((ai_proc_cycle st c).need_wakeup = true →
        c.ret = 0 ∧ run_emotion_this_frame st c = true
        ∧ c.now - st.g_last_emotion_trigger_ms ≥ kEmotionCooldownMs
        ∧ (ai_proc_cycle st c).st.g_last_emotion_trigger_ms = c.now
        ∧ (ai_proc_cycle st c).stores = [c.now]
        ∧ ∃ i, i < c.dets.length ∧ (c.emo i).label ≠ "Neutral"
            ∧ (∀ j, j < i → (c.emo j).label = "Neutral")
            ∧ (ai_proc_cycle st c).wakeup_text = "我当前情绪是" ++ zh_label (c.emo i).label) := by
  by_cases h : c.ret = 0
  · cases hr : run_emotion_this_frame st c with
    | false =>
      rw [cycle_cached st c h hr]
      simp
    | true =>
      rw [cycle_fresh st c h hr]
      obtain ⟨hA, hB⟩ :=
        for_loop_fresh_gate c.emo c.now (loop_entry true st c) rfl c.dets.length
      refine ⟨fun hw => ?_, fun hw => ?_⟩
      · obtain ⟨a1, a2, _, a4⟩ := hA hw
        refine ⟨a1, a2, ?_⟩
        rintro ⟨_, _, hcool, j, hj, hne⟩
        exact hne (a4 hcool j hj)
      · obtain ⟨b1, b2, b3, b4⟩ := hB hw
        exact ⟨h, rfl, b1, b2, b3, b4⟩
  · rw [cycle_skipped st c h]
    simp [h]

/-! ## Alignment of the published lists (C1) -/

/-- Claim C1.  In every state reached from the initial state by a finite sequence of passes
of the `while` loop (fresh or cached, any number of detections, passes skipped by the
`continue` of line 122 included), `face_det_results` and `face_emotion_results` have the
same length when the lock is released, every index below `face_det_results.size()` is a
valid index of `face_emotion_results`, and so every call of `draw_result_video` made by
`frame_handler` reads inside both vectors. -/
theorem published_lists_aligned (cs : List (Cycle Det)) :
    (run_cycles (State.init Det) cs).face_det_results.length
        = (run_cycles (State.init Det) cs).face_emotion_results.length
      ∧ (∀ i, i < (run_cycles (State.init Det) cs).face_det_results.length →
          ∃ e, (run_cycles (State.init Det) cs).face_emotion_results[i]? = some e)
      ∧ ∀ x ∈ frame_handler_draws (run_cycles (State.init Det) cs), x ≠ none := by
  have h := run_cycles_aligned cs (State.init Det) rfl
  refine ⟨h, fun i hi => ?_, fun x hx => ?_⟩
  · rw [h] at hi
    exact ⟨_, List.getElem?_eq_getElem hi⟩
  · unfold frame_handler_draws at hx
    obtain ⟨i, hi, rfl⟩ := List.mem_map.mp hx
    have hi1 := List.mem_range.mp hi
    have hi2 := hi1
    rw [h] at hi2
    rw [List.getElem?_eq_getElem hi1, List.getElem?_eq_getElem hi2]
    simp

/-! ## The throttle timestamp (C8) -/

/-- Claim C8, refuted as stated: from the initial state, a pass at clock value 1000 in
which the detector returns no face is a fresh pass and moves `last_emotion_infer_ms` from
0 to 1000. -/
theorem zero_faces_advance_throttle :
    (uniform_cycle 1000 0 ⟨0, 0, "Neutral"⟩).dets = []
      ∧ run_emotion_this_frame (State.init Unit) (uniform_cycle 1000 0 ⟨0, 0, "Neutral"⟩) = true
      ∧ (State.init Unit).last_emotion_infer_ms = 0
      ∧ (ai_proc_cycle (State.init Unit)
          (uniform_cycle 1000 0 ⟨0, 0, "Neutral"⟩)).st.last_emotion_infer_ms = 1000 := by
  decide

/-- Claim C8, amended.  After a pass, `last_emotion_infer_ms` is the clock reading `now`
of that pass when the frame was acquired and `run_emotion_this_frame` was true, whatever
the number of detected faces (lines 169-171), and it is the value it had before the pass
in every other case. -/
theorem throttle_timestamp_after_cycle (st : State Det) (c : Cycle Det) :
    (ai_proc_cycle st c).st.last_emotion_infer_ms
      = if c.ret = 0 ∧ run_emotion_this_frame st c = true then c.now
        else st.last_emotion_infer_ms := by
  by_cases h : c.ret = 0
  · cases hr : run_emotion_this_frame st c with
    | false => rw [cycle_cached st c h hr]; simp
    | true => rw [cycle_fresh st c h hr]; simp [h]
  · rw [cycle_skipped st c h]; simp [h]

/-! ## Timestamps along a sequence of passes -/

theorem cycle_infer (st : State Det) (c : Cycle Det) :
    (ai_proc_cycle st c).st.last_emotion_infer_ms
      = if c.ret = 0 ∧ run_emotion_this_frame st c = true then c.now
        else st.last_emotion_infer_ms := by
  by_cases h : c.ret = 0
  · cases hr : run_emotion_this_frame st c with
    | false => rw [cycle_cached st c h hr]; simp
    | true => rw [cycle_fresh st c h hr]; simp [h]
  · rw [cycle_skipped st c h]; simp [h]

theorem run_cycles_infer (cs : List (Cycle Det)) : ∀ (st : State Det),
    (∀ c ∈ cs, c.ret = 0) →
    (run_cycles st cs).last_emotion_infer_ms
      = last_fresh_time st.last_emotion_infer_ms (cs.zip (decisions st cs)) := by
  induction cs with
  | nil => intro st _; rfl
  | cons c cs ih =>
    intro st h
    have hc : c.ret = 0 := h c (List.mem_cons_self _ _)
    have ht : ∀ x ∈ cs, x.ret = 0 := fun x hx => h x (List.mem_cons_of_mem _ hx)
    simp only [run_cycles, decisions, List.zip_cons_cons]
    rw [ih _ ht, cycle_infer]
    simp [last_fresh_time, hc]

theorem run_cycles_trigger (cs : List (Cycle Det)) : ∀ (st : State Det),
    (run_cycles st cs).g_last_emotion_trigger_ms
      = (trigger_log st cs).getLastD st.g_last_emotion_trigger_ms := by
  induction cs with
  | nil => intro st; rfl
  | cons c cs ih =>
    intro st
    simp only [run_cycles, trigger_log]
    rw [ih]
    cases hw : (ai_proc_cycle st c).need_wakeup with
    | false =>
      obtain ⟨a1, a2, _⟩ := (cycle_gate st c).1 hw
      rw [a1, a2]
      rfl
    | true =>
      obtain ⟨_, _, _, b2, b3, _⟩ := (cycle_gate st c).2 hw
      rw [b2, b3, List.singleton_append, List.getLastD_cons]

theorem trigger_log_spaced (cs : List (Cycle Det)) : ∀ (st : State Det),
    List.Pairwise (fun a b => a + kEmotionCooldownMs ≤ b) (trigger_log st cs)
      ∧ ∀ t ∈ trigger_log st cs, st.g_last_emotion_trigger_ms + kEmotionCooldownMs ≤ t := by
  induction cs with
  | nil => intro st; simp [trigger_log]
  | cons c cs ih =>
    intro st
    obtain ⟨ih1, ih2⟩ := ih (ai_proc_cycle st c).st
    simp only [trigger_log]
    cases hw : (ai_proc_cycle st c).need_wakeup with
    | false =>
      obtain ⟨a1, a2, _⟩ := (cycle_gate st c).1 hw
      rw [a1] at ih2
      rw [a2]
      exact ⟨ih1, ih2⟩
    | true =>
      obtain ⟨_, _, b1, b2, b3, _⟩ := (cycle_gate st c).2 hw
      rw [b2] at ih2
      rw [b3]
      have hk : (0 : Int) ≤ kEmotionCooldownMs := by decide
      refine ⟨List.pairwise_cons.mpr ⟨ih2, ih1⟩, fun t ht => ?_⟩
      rcases List.mem_cons.mp ht with h | h
      · rw [h]; omega
      · have := ih2 t h
        omega

/-! ## The emotion cache in a cached pass (C6, C7) -/

/-- Claim C6.  In a pass whose `run_emotion_this_frame` is false the start cache `c` is a
leading part of the cache afterwards, so no entry moves and the cache is neither
shortened nor cleared; when the frame was acquired with `n` detections the cache length
afterwards is `max (len c) n` and the emotion published for every slot
`i < min n (len c)` is `c[i]`. -/
theorem cached_cycle_keeps_cache (st : State Det) (c : Cycle Det)
    (hr : run_emotion_this_frame st c = false) :
    (∃ t, (ai_proc_cycle st c).st.cached_emotion_results = st.cached_emotion_results ++ t)
      ∧ (∀ i, i < st.cached_emotion_results.length →
          (ai_proc_cycle st c).st.cached_emotion_results[i]? = st.cached_emotion_results[i]?)
      ∧ st.cached_emotion_results.length ≤ (ai_proc_cycle st c).st.cached_emotion_results.length
      ∧ (c.ret = 0 →
          (ai_proc_cycle st c).st.cached_emotion_results.length
              = max st.cached_emotion_results.length c.dets.length
          ∧ ∀ i, i < min c.dets.length st.cached_emotion_results.length →
              (ai_proc_cycle st c).st.face_emotion_results[i]? = st.cached_emotion_results[i]?) := by
  by_cases h : c.ret = 0
  · rw [cycle_cached st c h hr]
    refine ⟨⟨_, rfl⟩, fun i hi => ?_, by simp, fun _ => ⟨?_, fun i hi => ?_⟩⟩
    · simp [List.getElem?_append_left hi]
    · simp only [List.length_append, List.length_replicate]
      omega
    · have h1 : i < c.dets.length := lt_of_lt_of_le hi (min_le_left _ _)
      have h2 : i < st.cached_emotion_results.length := lt_of_lt_of_le hi (min_le_right _ _)
      simp [h1, h2, List.getD_eq_getElem?_getD, List.getElem?_eq_getElem]
  · rw [cycle_skipped st c h]
    exact ⟨⟨[], by simp⟩, fun _ _ => rfl, le_refl _, fun h0 => absurd h0 h⟩

/-- Witness for C6: a cached pass with two detections over a cache of one entry. -/
theorem cached_cycle_keeps_cache_witness :
    run_emotion_this_frame state_after_one_face (uniform_cycle 1500 2 fear) = false
      ∧ (∃ t, (ai_proc_cycle state_after_one_face
            (uniform_cycle 1500 2 fear)).st.cached_emotion_results
          = state_after_one_face.cached_emotion_results ++ t) :=
  ⟨by decide,
   (cached_cycle_keeps_cache state_after_one_face (uniform_cycle 1500 2 fear) (by decide)).1⟩

/-- Claim C7.  In a cached pass that acquired its frame, for every detection index `i`
not below the cache length at the start of the pass: the emotion published for slot `i`
is the default `(0, 0, "Neutral")`; when iteration `i` begins the cache has exactly `i`
entries, so the `push_back` of line 155 puts the default at index `i` and nowhere else,
leaving all earlier entries in place; the cache after the pass holds the default at
index `i`; and a later cached lookup of slot `i` (lines 150-151) returns the same value
and changes nothing. -/
theorem cache_miss_default (st : State Det) (c : Cycle Det)
    (hr : run_emotion_this_frame st c = false) (h0 : c.ret = 0) (i : Nat)
    (h1 : st.cached_emotion_results.length ≤ i) (h2 : i < c.dets.length) :
    (ai_proc_cycle st c).st.face_emotion_results[i]? = some ⟨0, 0, "Neutral"⟩
      ∧ (for_loop false c.emo c.now i (loop_entry false st c)).st.cached_emotion_results.length = i
      ∧ (for_loop false c.emo c.now (i + 1) (loop_entry false st c)).st.cached_emotion_results
          = (for_loop false c.emo c.now i (loop_entry false st c)).st.cached_emotion_results
              ++ [⟨0, 0, "Neutral"⟩]
      ∧ (ai_proc_cycle st c).st.cached_emotion_results[i]? = some ⟨0, 0, "Neutral"⟩
      ∧ ∀ (emo : Nat → FaceEmotionInfo) (now : Int),
          emotion_for false emo now (ai_proc_cycle st c).st i
            = (⟨0, 0, "Neutral"⟩, (ai_proc_cycle st c).st) := by
  have hc : (ai_proc_cycle st c).st.cached_emotion_results[i]?
      = some (⟨0, 0, "Neutral"⟩ : FaceEmotionInfo) := by
    rw [cycle_cached st c h0 hr]
    simp only
    rw [List.getElem?_append_right h1, List.getElem?_replicate]
    simp
    omega
  have hlen : i < (ai_proc_cycle st c).st.cached_emotion_results.length := by
    by_contra hn
    rw [List.getElem?_eq_none (not_lt.mp hn)] at hc
    cases hc
  refine ⟨?_, ?_, ?_, hc, fun emo now => ?_⟩
  · rw [cycle_cached st c h0 hr]
    simp [h2, List.getD_eq_getElem?_getD, List.getElem?_eq_none h1]
  · rw [for_loop_cached]
    simp [loop_entry]
    omega
  · rw [for_loop_cached, for_loop_cached]
    have e : i + 1 - st.cached_emotion_results.length
        = (i - st.cached_emotion_results.length) + 1 := by omega
    simp [loop_entry, e, List.replicate_succ']
  · unfold emotion_for
    rw [List.getElem?_eq_getElem hlen] at hc
    simp [hlen, Option.some.inj hc]

/-- Witness for C7: slot 1 of a cached pass with two detections over a cache of one
entry. -/
theorem cache_miss_default_witness :
    run_emotion_this_frame state_after_one_face (uniform_cycle 1500 2 fear) = false
      ∧ (uniform_cycle 1500 2 fear).ret = 0
      ∧ state_after_one_face.cached_emotion_results.length ≤ 1
      ∧ 1 < (uniform_cycle 1500 2 fear).dets.length
      ∧ (ai_proc_cycle state_after_one_face
          (uniform_cycle 1500 2 fear)).st.face_emotion_results[1]? = some ⟨0, 0, "Neutral"⟩ :=
  ⟨by decide, by decide, by decide, by decide,
   (cache_miss_default state_after_one_face (uniform_cycle 1500 2 fear)
      (by decide) (by decide) 1 (by decide) (by decide)).1⟩

/-! ## The throttle decision (C2) -/

/-- Claim C2, refuted as stated: from the initial state the first pass, at clock value 0
with one face, is not a fresh pass, and the passes at 0, 300, 900, 1100 ms with one face
each decide false, false, false, true instead of true, false, false, true. -/
theorem first_cycle_at_zero_not_fresh :
    (uniform_cycle 0 1 happy).dets ≠ []
      ∧ run_emotion_this_frame (State.init Unit) (uniform_cycle 0 1 happy) = false
      ∧ decisions (State.init Unit)
          [uniform_cycle 0 1 happy, uniform_cycle 300 1 happy,
           uniform_cycle 900 1 happy, uniform_cycle 1100 1 happy]
        = [false, false, false, true] := by
  decide

/-- Claim C2, amended.  Start from the initial state, where `last_emotion_infer_ms` is 0
and there is no separate never-run state, and let every earlier pass acquire its frame
and detect at least one face.  Then the decision `run_emotion_this_frame` of the next
pass is true exactly when `loop_now` minus the time of the last fresh inference is at
least 1000, that time being the `now` of the latest earlier pass whose decision was true
and 0 when there is none; so the very first decision is true exactly when
`loop_now >= 1000`, and for passes at 0, 300, 900, 1100 ms the decisions are
false, false, false, true. -/
theorem throttle_decision (cs : List (Cycle Det))
    (h : ∀ c ∈ cs, c.ret = 0 ∧ c.dets ≠ []) (c : Cycle Det) :
    (run_emotion_this_frame (run_cycles (State.init Det) cs) c = true ↔
        c.loop_now - last_fresh_time 0 (cs.zip (decisions (State.init Det) cs)) ≥ 1000)
      ∧ (run_emotion_this_frame (State.init Det) c = true ↔ c.loop_now ≥ 1000)
      ∧ ∀ e : FaceEmotionInfo,
          decisions (State.init Unit)
            [uniform_cycle 0 1 e, uniform_cycle 300 1 e, uniform_cycle 900 1 e,
             uniform_cycle 1100 1 e]
          = [false, false, false, true] := by
  refine ⟨?_, ?_, fun e => ?_⟩
  · have hl := run_cycles_infer cs (State.init Det) (fun x hx => (h x hx).1)
    unfold run_emotion_this_frame
    rw [hl]
    simp [State.init, kEmotionIntervalMs]
  · simp [run_emotion_this_frame, State.init, kEmotionIntervalMs]
  · simp [decisions, run_emotion_this_frame, cycle_infer, uniform_cycle, State.init,
      kEmotionIntervalMs]

/-- Witness for C2 (amended): after passes at 0 and 1100 ms, a pass at 2100 ms. -/
theorem throttle_decision_witness :
    (∀ c ∈ [uniform_cycle 0 1 happy, uniform_cycle 1100 1 happy], c.ret = 0 ∧ c.dets ≠ [])
      ∧ (run_emotion_this_frame
            (run_cycles (State.init Unit) [uniform_cycle 0 1 happy, uniform_cycle 1100 1 happy])
            (uniform_cycle 2100 1 happy) = true ↔
          (2100 : Int) - 1100 ≥ 1000) :=
  ⟨by decide,
   (throttle_decision [uniform_cycle 0 1 happy, uniform_cycle 1100 1 happy] (by decide)
      (uniform_cycle 2100 1 happy)).1⟩

/-! ## The cooldown (C3, C4, C5) -/

/-- Claim C3, refuted as stated: from the initial state a fresh pass at clock value 2000
with one face labelled "Happiness" is a qualifying candidate before which no trigger was
accepted, and it is not accepted; and of the passes at 0, 2000, 3000 ms with label
"Happiness" the first does not trigger. -/
theorem first_candidate_not_accepted :
    run_emotion_this_frame (State.init Unit) (uniform_cycle 2000 1 happy) = true
      ∧ happy.label ≠ "Neutral"
      ∧ trigger_log (State.init Unit) [] = []
      ∧ (ai_proc_cycle (State.init Unit) (uniform_cycle 2000 1 happy)).need_wakeup = false
      ∧ (outputs (State.init Unit)
          [uniform_cycle 0 1 happy, uniform_cycle 2000 1 happy, uniform_cycle 3000 1 happy]).map
            (fun o => o.need_wakeup)
        = [false, false, true] := by
  decide

/-- Claim C3, amended.  Start from the initial state, where `g_last_emotion_trigger_ms`
is 0 and there is no separate never-triggered state.  After any earlier passes, a
qualifying candidate (the frame is acquired, the pass is fresh, some face has a label
other than "Neutral") presented at time `now` is accepted exactly when
`now - last >= 3000`, boundary included, where `last` is the time of the latest accepted
trigger and 0 when none was accepted.  In particular, of the passes at 0, 2000, 3000 ms
with label "Happiness" only the third triggers, and of the passes at 3000, 5000, 6000 ms
the first triggers, the second does not, the third triggers again. -/
theorem cooldown_acceptance (cs : List (Cycle Det)) (c : Cycle Det)
    (h0 : c.ret = 0) (hr : run_emotion_this_frame (run_cycles (State.init Det) cs) c = true)
    (hq : ∃ i, i < c.dets.length ∧ (c.emo i).label ≠ "Neutral") :
    ((ai_proc_cycle (run_cycles (State.init Det) cs) c).need_wakeup = true ↔
        c.now - (trigger_log (State.init Det) cs).getLastD 0 ≥ 3000)
      ∧ (outputs (State.init Unit)
          [uniform_cycle 0 1 happy, uniform_cycle 2000 1 happy, uniform_cycle 3000 1 happy]).map
            (fun o => o.need_wakeup)
        = [false, false, true]
      ∧ (outputs (State.init Unit)
          [uniform_cycle 3000 1 happy, uniform_cycle 5000 1 happy, uniform_cycle 6000 1 happy]).map
            (fun o => o.need_wakeup)
        = [true, false, true] := by
  refine ⟨?_, by decide, by decide⟩
  have hg := run_cycles_trigger cs (State.init Det)
  have hgate := cycle_gate (run_cycles (State.init Det) cs) c
  rw [hg] at hgate
  constructor
  · intro hw
    exact (hgate.2 hw).2.2.1
  · intro hcool
    by_contra hn
    have hf : (ai_proc_cycle (run_cycles (State.init Det) cs) c).need_wakeup = false := by
      simpa using hn
    exact (hgate.1 hf).2.2 ⟨h0, hr, hcool, hq⟩

/-- Witness for C3 (amended): after an accepted trigger at 3000 ms, a candidate at
6000 ms. -/
theorem cooldown_acceptance_witness :
    (uniform_cycle 6000 1 happy).ret = 0
      ∧ run_emotion_this_frame
          (run_cycles (State.init Unit) [uniform_cycle 3000 1 happy]) (uniform_cycle 6000 1 happy)
        = true
      ∧ (∃ i, i < (uniform_cycle 6000 1 happy).dets.length
          ∧ ((uniform_cycle 6000 1 happy).emo i).label ≠ "Neutral")
      ∧ ((ai_proc_cycle (run_cycles (State.init Unit) [uniform_cycle 3000 1 happy])
            (uniform_cycle 6000 1 happy)).need_wakeup = true ↔
          (6000 : Int) - 3000 ≥ 3000) :=
  ⟨by decide, by decide, ⟨0, by decide, by decide⟩,
   (cooldown_acceptance [uniform_cycle 3000 1 happy] (uniform_cycle 6000 1 happy)
      (by decide) (by decide) ⟨0, by decide, by decide⟩).1⟩

/-- Claim C4.  For every finite sequence of passes, from any state, the values stored
into `g_last_emotion_trigger_ms` (the times at which a trigger is accepted), taken in
order, are pairwise at least 3000 ms apart: each later one is at least 3000 above each
earlier one.  This holds for all timestamp sequences, the non-decreasing ones included.
A single pass performs at most one store, and it performs one exactly when it leaves
`need_wakeup` set, whatever the number of faces with a label other than "Neutral". -/
theorem triggers_spaced (st : State Det) (cs : List (Cycle Det)) :
    List.Pairwise (fun a b => a + 3000 ≤ b) (trigger_log st cs)
      ∧ (∀ (s : State Det) (c : Cycle Det), (ai_proc_cycle s c).stores.length ≤ 1
          ∧ ((ai_proc_cycle s c).need_wakeup = true ↔ (ai_proc_cycle s c).stores = [c.now]))
      ∧ (ai_proc_cycle (State.init Unit) (uniform_cycle 5000 3 happy)).stores = [5000] := by
  refine ⟨(trigger_log_spaced cs st).1, fun s c => ?_, by decide⟩
  cases hw : (ai_proc_cycle s c).need_wakeup with
  | false =>
    obtain ⟨_, a2, _⟩ := (cycle_gate s c).1 hw
    simp [a2]
  | true =>
    obtain ⟨_, _, _, _, b3, _⟩ := (cycle_gate s c).2 hw
    simp [b3]

/-- Claim C5.  In every pass a trigger fires (`need_wakeup` ends true) if and only if the
pass acquired its frame (a pass that takes the `continue` detects no face), is a fresh
pass, the cooldown has elapsed (`now - g_last_emotion_trigger_ms >= 3000`) and some
published emotion of the pass has a label other than "Neutral".  When it fires, the
cooldown timestamp becomes `now` and the text is the fixed prefix followed by the
translation of the label of the lowest-index face whose label is not "Neutral"; for the
labels Neutral, Happiness, Fear the text is the one for Happiness and not the one for
Fear.  When it does not fire, the cooldown timestamp is left unchanged. -/
theorem trigger_fires_iff (st : State Det) (c : Cycle Det) :
    ((ai_proc_cycle st c).need_wakeup = true ↔
        c.ret = 0 ∧ run_emotion_this_frame st c = true
          ∧ c.now - st.g_last_emotion_trigger_ms ≥ 3000
          ∧ ∃ e ∈ (ai_proc_cycle st c).st.face_emotion_results, e.label ≠ "Neutral")
      ∧ ((ai_proc_cycle st c).need_wakeup = true →
          (ai_proc_cycle st c).st.g_last_emotion_trigger_ms = c.now
          ∧ ∃ (i : Nat) (e : FaceEmotionInfo), (ai_proc_cycle st c).st.face_emotion_results[i]? = some e
              ∧ e.label ≠ "Neutral"
              ∧ (∀ (j : Nat) (e0 : FaceEmotionInfo), j < i → (ai_proc_cycle st c).st.face_emotion_results[j]? = some e0 →
                  e0.label = "Neutral")
              ∧ (ai_proc_cycle st c).wakeup_text = "我当前情绪是" ++ zh_label e.label)
      ∧ ((ai_proc_cycle st c).need_wakeup = false →
          (ai_proc_cycle st c).st.g_last_emotion_trigger_ms = st.g_last_emotion_trigger_ms)
      ∧ ((ai_proc_cycle (State.init Unit) (three_faces_cycle 5000)).need_wakeup = true
          ∧ (ai_proc_cycle (State.init Unit) (three_faces_cycle 5000)).wakeup_text
              = "我当前情绪是" ++ zh_label "Happiness"
          ∧ (ai_proc_cycle (State.init Unit) (three_faces_cycle 5000)).wakeup_text
              ≠ "我当前情绪是" ++ zh_label "Fear") := by
  have hgate := cycle_gate st c
  have hlists : c.ret = 0 → run_emotion_this_frame st c = true →
      (ai_proc_cycle st c).st.face_emotion_results = (List.range c.dets.length).map c.emo :=
    fun h0 hr => (cycle_fresh_lists st c h0 hr).1
  refine ⟨⟨fun hw => ?_, fun hq => ?_⟩, fun hw => ?_, fun hw => (hgate.1 hw).1, by decide⟩
  · obtain ⟨h0, hr, hcool, _, _, i, hi, hne, _⟩ := hgate.2 hw
    refine ⟨h0, hr, hcool, c.emo i, ?_, hne⟩
    rw [hlists h0 hr]
    exact List.mem_map.mpr ⟨i, List.mem_range.mpr hi, rfl⟩
  · obtain ⟨h0, hr, hcool, e, he, hne⟩ := hq
    rw [hlists h0 hr] at he
    obtain ⟨i, hi, rfl⟩ := List.mem_map.mp he
    by_contra hn
    have hf : (ai_proc_cycle st c).need_wakeup = false := by simpa using hn
    exact (hgate.1 hf).2.2 ⟨h0, hr, hcool, i, List.mem_range.mp hi, hne⟩
  · obtain ⟨h0, hr, _, hg, _, i, hi, hne, hfirst, htext⟩ := hgate.2 hw
    refine ⟨hg, i, c.emo i, ?_, hne, fun j e0 hj hj0 => ?_, htext⟩
    · rw [hlists h0 hr]
      simp [hi]
    · rw [hlists h0 hr] at hj0
      have hjn : j < c.dets.length := lt_trans hj hi
      simp [hjn] at hj0
      rw [← hj0]
      exact hfirst j hj

/-! ## The wake-up event (C9) -/

/-- Claim C9, refuted as stated: the event sent for a pass that fires on a face labelled
"Happiness" has no member named "method" and none named "text"; its members are named
type, status, wake-up_method and wake-up_text. -/
theorem event_has_no_method_member :
    (ai_proc_cycle (State.init Unit) (uniform_cycle 5000 1 happy)).need_wakeup = true
      ∧ ∃ j, emitted true (ai_proc_cycle (State.init Unit) (uniform_cycle 5000 1 happy)) = some j
          ∧ j.lookup "method" = none ∧ j.lookup "text" = none
          ∧ j.map Prod.fst = ["type", "status", "wake-up_method", "wake-up_text"] := by
  refine ⟨by decide, _, rfl, ?_, ?_, ?_⟩ <;> decide

/-- Claim C9, amended.  Whenever the trigger of a pass fires and the transport endpoint
exists, the emitted event is a JSON object with exactly the four members named type,
status, wake-up_method and wake-up_text, whose values are "wake-up", "start", "video" and
the text built for the triggering face (the lowest-index face whose label is not
"Neutral"): the fixed prefix followed by the entry of the label table for that label, or
by the raw label when the table has no entry. -/
theorem wakeup_event_members (st : State Det) (c : Cycle Det) (ep : Bool)
    (hw : (ai_proc_cycle st c).need_wakeup = true) (hep : ep = true) :
    ∃ (i : Nat) (e : FaceEmotionInfo), (ai_proc_cycle st c).st.face_emotion_results[i]? = some e
      ∧ e.label ≠ "Neutral"
      ∧ (∀ (j : Nat) (e0 : FaceEmotionInfo), j < i → (ai_proc_cycle st c).st.face_emotion_results[j]? = some e0 →
          e0.label = "Neutral")
      ∧ emitted ep (ai_proc_cycle st c)
          = some [("type", "wake-up"), ("status", "start"), ("wake-up_method", "video"),
                  ("wake-up_text",
                    "我当前情绪是" ++ (kEmotionLabelZh.lookup e.label).getD e.label)] := by
  obtain ⟨h0, hr, _, _, _, i, hi, hne, hfirst, htext⟩ := (cycle_gate st c).2 hw
  have hl := (cycle_fresh_lists st c h0 hr).1
  refine ⟨i, c.emo i, ?_, hne, fun j e0 hj hj0 => ?_, ?_⟩
  · rw [hl]
    simp [hi]
  · rw [hl] at hj0
    have hjn : j < c.dets.length := lt_trans hj hi
    simp [hjn] at hj0
    rw [← hj0]
    exact hfirst j hj
  · have hz : zh_label (c.emo i).label
        = (kEmotionLabelZh.lookup (c.emo i).label).getD (c.emo i).label := by
      unfold zh_label
      cases kEmotionLabelZh.lookup (c.emo i).label <;> rfl
    unfold emitted
    rw [hw, hep, htext, hz]
    simp [wakeup_json, Json.set]

/-- Witness for C9 (amended): a fresh pass at 5000 ms seeing Neutral, Happiness, Fear. -/
theorem wakeup_event_members_witness :
    (ai_proc_cycle (State.init Unit) (three_faces_cycle 5000)).need_wakeup = true
      ∧ ∃ (i : Nat) (e : FaceEmotionInfo), (ai_proc_cycle (State.init Unit)
            (three_faces_cycle 5000)).st.face_emotion_results[i]? = some e
          ∧ e.label ≠ "Neutral"
          ∧ (∀ (j : Nat) (e0 : FaceEmotionInfo), j < i → (ai_proc_cycle (State.init Unit)
              (three_faces_cycle 5000)).st.face_emotion_results[j]? = some e0 →
              e0.label = "Neutral")
          ∧ emitted true (ai_proc_cycle (State.init Unit) (three_faces_cycle 5000))
              = some [("type", "wake-up"), ("status", "start"), ("wake-up_method", "video"),
                      ("wake-up_text",
                        "我当前情绪是" ++ (kEmotionLabelZh.lookup e.label).getD e.label)] :=
  ⟨by decide,
   wakeup_event_members (State.init Unit) (three_faces_cycle 5000) true (by decide) rfl⟩

end UiAndAi
